import Mathlib

/-!
Verification of the client-side rate-limit / retry coordination core of the
Streamex repository (frontend/src/lib/utils.js, `RateLimitHandler`, and the
channel cache of frontend/src/pages/ChatPage.jsx).

Shallow embedding conventions:
* JS `Map`s become association lists `List (String × α)` (unique keys are not
  assumed; `alookup` finds the first binding, `aset` replaces all bindings of
  the key, matching `Map.set` semantics pointwise).
* JS `Set`s become `List String` with membership via `==`.
* `Date.now()` becomes an explicit `now : Int` argument; within one
  `executeWithRetry` call tree the clock is frozen.  `sleep` and the backoff
  delay computation have no observable effect on the embedded state (they only
  consume wall-clock time), so they are not threaded through the state; the
  5-minute `setTimeout` that eventually removes a key from
  `blockedOperations` is likewise outside the embedded state, which describes
  the coordinator before that timer fires.
* a thrown JS `Error` becomes a `JSError` carrying its `.message` and its
  `.toString()` rendering; async operations become `Nat → Except JSError α`,
  indexed by how many times the operation has been invoked so far.
* `Math.random() * 1000` (the jitter draw) becomes an explicit rational
  parameter of `calculateBackoffDelay`.
-/

/-- Lowercase a single character, as `toLowerCase` does on ASCII. -/
def lowerChar (c : Char) : Char :=
  if 'A' ≤ c && c ≤ 'Z' then Char.ofNat (c.toNat + 32) else c

/-- Lowercase a string (`String.toLower` of the source's `toLowerCase()`),
defined over the character list so that it evaluates in the kernel. -/
def lowerStr (s : String) : String := ⟨s.data.map lowerChar⟩

/-- Boolean list-prefix test. -/
def lcIsPre : List Char → List Char → Bool
  | [], _ => true
  | _ :: _, [] => false
  | a :: as, b :: bs => a == b && lcIsPre as bs

/-- Boolean infix (substring) test over character lists. -/
def lcInfix (pat : List Char) : List Char → Bool
  | [] => lcIsPre pat []
  | c :: cs => lcIsPre pat (c :: cs) || lcInfix pat cs

/-- JS `s.includes(pat)`. -/
def containsSubstr (s pat : String) : Bool := lcInfix pat.data s.data

/-- JS `s.startsWith(p)`. -/
def startsWithStr (s p : String) : Bool := lcIsPre p.data s.data

/-- First-binding lookup in an association list (JS `Map.get`). -/
def alookup {α : Type} : List (String × α) → String → Option α
  | [], _ => none
  | (k', v) :: rest, k => if k' = k then some v else alookup rest k

/-- JS `Map.delete`: drop every binding of `k`. -/
def aerase {α : Type} : List (String × α) → String → List (String × α)
  | [], _ => []
  | p :: rest, k => if p.1 = k then aerase rest k else p :: aerase rest k

/-- JS `Map.set`: bind `k` to `v`, dropping any previous binding of `k`. -/
def aset {α : Type} (m : List (String × α)) (k : String) (v : α) :
    List (String × α) :=
  (k, v) :: aerase m k

/-- JS `Set.has`. -/
def smem : List String → String → Bool
  | [], _ => false
  | a :: rest, k => a == k || smem rest k

/-- JS `Set.delete`. -/
def sdel : List String → String → List String
  | [], _ => []
  | a :: rest, k => if a = k then sdel rest k else a :: sdel rest k

/-- JS `Set.add`. -/
def sadd (s : List String) (k : String) : List String :=
  if smem s k then s else s ++ [k]

/-- One entry of `connectionAttempts`: `{ count, firstAttempt }`. -/
structure WSWindow where
  count : Nat
  firstAttempt : Int
deriving DecidableEq, Repr

/-- The mutable state of `RateLimitHandler` (utils.js, constructor):
`retryAttempts`, `lastRequestTime`, `connectionAttempts`,
`blockedOperations`.  `minRequestInterval = 2000` is a constant and is folded
into `intervalFor`. -/
structure RLState where
  retryAttempts : List (String × Nat)
  lastRequestTime : List (String × Int)
  connectionAttempts : List (String × WSWindow)
  blockedOperations : List String
deriving DecidableEq, Repr

/-- The all-empty handler state (a freshly constructed `RateLimitHandler`). -/
def emptyRL : RLState := ⟨[], [], [], []⟩

/-- A thrown JS error: its `.message` and its `.toString()` rendering. -/
structure JSError where
  message : String
  str : String
deriving DecidableEq, Repr

/-- An error constructed by `new Error(m)` (whose `toString()` is
`"Error: " ++ m`). -/
def mkError (m : String) : JSError := ⟨m, "Error: " ++ m⟩

/-- utils.js line 83: the error thrown when the WebSocket gate blocks. -/
def wsLimitError : JSError :=
  mkError "WebSocket connection rate limit exceeded. Please wait 5 minutes."

/-- utils.js line 131: the terminal error for connection-classified failures. -/
def videoFailedError : JSError :=
  mkError "Video connection failed. Please refresh the page and try again."

/-- utils.js line 133: the terminal error for rate-limit-classified failures. -/
def rateLimitExceededError : JSError :=
  mkError "Rate limit exceeded. Please wait 5 minutes before trying again."

/-- utils.js lines 145-154: the rate-limit indicator substrings. -/
def rateLimitIndicators : List String :=
  ["too many requests", "rate limit", "error code 9", "statuscode\":429",
   "status code 429", "getorcreatechannel failed", "quota exceeded",
   "limit exceeded"]

/-- utils.js lines 166-177: the connection/transport indicator substrings. -/
def wsErrorIndicators : List String :=
  ["websocket", "ws failed", "connection failed", "code: 1006",
   "joinresponse", "timed out", "network error", "connection closed",
   "sfu", "coordinator"]

/-- utils.js `isRateLimitError`: some indicator occurs in the lowercased
message or the lowercased string rendering. -/
def isRateLimitError (e : JSError) : Bool :=
  rateLimitIndicators.any (fun ind =>
    containsSubstr (lowerStr e.message) ind || containsSubstr (lowerStr e.str) ind)

/-- utils.js `isWebSocketError`. -/
def isWebSocketError (e : JSError) : Bool :=
  wsErrorIndicators.any (fun ind =>
    containsSubstr (lowerStr e.message) ind || containsSubstr (lowerStr e.str) ind)

/-- utils.js `calculateBackoffDelay`, with the `Math.random() * 1000` draw an
explicit parameter `jitter`:
`min(2000 * 2^attempt, 60000) + jitter`. -/
def calculateBackoffDelay (attempt : Nat) (jitter : ℚ) : ℚ :=
  min (2000 * 2 ^ attempt) 60000 + jitter

/-- utils.js lines 33-41: the per-operation minimum interval table;
unknown operations fall back to `minRequestInterval = 2000`, as does the
`'default'` entry. -/
def intervalFor (operation : String) : Int :=
  if operation = "video-call" then 5000
  else if operation = "channel-create" then 3000
  else if operation = "user-connect" then 4000
  else if operation = "send-message" then 1000
  else 2000

/-- utils.js line 43: the test `lastRequest && (now - lastRequest) < interval`.
Note the JS truthiness of `lastRequest`: a stored timestamp of `0` is falsy
and therefore behaves as if absent. -/
def withinGapB (now interval : Int) (lastRequest : Option Int) : Bool :=
  match lastRequest with
  | none => false
  | some lr =>
    if lr = 0 then false
    else if now - lr < interval then true else false

/-- utils.js `shouldRateLimit`.  Returns the boolean result together with the
updated handler state. -/
def shouldRateLimit (userId operation : String) (now : Int) (s : RLState) :
    Bool × RLState :=
  let key := userId ++ "-" ++ operation
  if smem s.blockedOperations key then (true, s)
  else if withinGapB now (intervalFor operation) (alookup s.lastRequestTime key)
    then (true, s)
  else (false, { s with lastRequestTime := aset s.lastRequestTime key now })

/-- utils.js `shouldRateLimitWebSocket`. -/
def shouldRateLimitWebSocket (userId type_ : String) (now : Int) (s : RLState) :
    Bool × RLState :=
  let key := userId ++ "-ws-" ++ type_
  let attempts := (alookup s.connectionAttempts key).getD ⟨0, now⟩
  if now - attempts.firstAttempt > 300000 then
    (false, { s with connectionAttempts := aerase s.connectionAttempts key })
  else if attempts.count ≥ 5 then (true, s)
  else
    (false,
     { s with connectionAttempts :=
                aset s.connectionAttempts key
                  ⟨attempts.count + 1, attempts.firstAttempt⟩ })

/-- utils.js line 78: the stored attempt count for a key (`|| 0`). -/
def getAttempt (s : RLState) (k : String) : Nat :=
  (alookup s.retryAttempts k).getD 0

/-- utils.js line 81: an operation type routed through the WebSocket gate. -/
def wsOperationType (operationType : String) : Bool :=
  containsSubstr operationType "video" || containsSubstr operationType "connect"

/-- utils.js lines 81-85 as a function: the WebSocket gate consultation;
for non-WebSocket operation types it passes with the state unchanged. -/
def wsGateResult (userId operationType : String) (now : Int) (s : RLState) :
    Bool × RLState :=
  if wsOperationType operationType then
    shouldRateLimitWebSocket userId operationType now s
  else (false, s)

/-- utils.js `executeWithRetry`.  `op n` is the outcome of the `(n+1)`-th
invocation of the wrapped operation; `calls` counts invocations made so far
(the external entry point passes `0`).  Returns the overall outcome, the final
handler state, and the total invocation count.  The `sleep` calls and the
backoff-delay computations of the source change no handler state and are
therefore not represented; a `shouldRateLimit` result of `true` only causes
such a sleep, so only its state update is kept. -/
def executeWithRetry {α : Type} (op : Nat → Except JSError α)
    (userId operationType : String) (maxRetries : Nat) (now : Int)
    (s : RLState) (calls : Nat) : Except JSError α × RLState × Nat :=
  let key := userId ++ "-" ++ operationType
  let attempt := getAttempt s key
  let wres := wsGateResult userId operationType now s
  if wres.1 then (Except.error wsLimitError, wres.2, calls)
  else
    let s2 := (shouldRateLimit userId operationType now wres.2).2
    match op calls with
    | Except.ok v =>
      (Except.ok v,
       { s2 with retryAttempts := aerase s2.retryAttempts key,
                 blockedOperations := sdel s2.blockedOperations key },
       calls + 1)
    | Except.error e =>
      if isRateLimitError e || isWebSocketError e then
        if attempt < maxRetries then
          executeWithRetry op userId operationType maxRetries now
            { s2 with retryAttempts := aset s2.retryAttempts key (attempt + 1) }
            (calls + 1)
        else
          (Except.error
             (if isWebSocketError e then videoFailedError
              else rateLimitExceededError),
           { s2 with blockedOperations := sadd s2.blockedOperations key },
           calls + 1)
      else (Except.error e, s2, calls + 1)
termination_by maxRetries + 1 - getAttempt s (userId ++ "-" ++ operationType)
decreasing_by
  rename_i hlt
  have hlt2 :
      (alookup s.retryAttempts (userId ++ "-" ++ operationType)).getD 0 <
        maxRetries := hlt
  simp only [getAttempt, aset, alookup, if_true, Option.getD_some]
  omega

/-- The keys of an association list that start with `userId`
(the `for (const key of m.keys()) if (key.startsWith(userId)) ...` loops of
`clearUserAttempts`). -/
def keysWithPre {α : Type} (userId : String) :
    List (String × α) → List String
  | [] => []
  | p :: rest =>
    if startsWithStr p.1 userId then p.1 :: keysWithPre userId rest
    else keysWithPre userId rest

/-- In-place deletion of the set members starting with `userId`
(the `blockedOperations` loop of `clearUserAttempts`). -/
def sdropWithPre (userId : String) : List String → List String
  | [] => []
  | a :: rest =>
    if startsWithStr a userId then sdropWithPre userId rest
    else a :: sdropWithPre userId rest

/-- In-place deletion of the map entries whose key starts with `userId`
(the `connectionAttempts` loop of `clearUserAttempts`). -/
def adropWithPre {α : Type} (userId : String) :
    List (String × α) → List (String × α)
  | [] => []
  | p :: rest =>
    if startsWithStr p.1 userId then adropWithPre userId rest
    else p :: adropWithPre userId rest

/-- utils.js `clearUserAttempts`, first phase: `keysToDelete`, the keys
collected from `retryAttempts` and then from `lastRequestTime` that start
with `userId`. -/
def clearKeys (userId : String) (s : RLState) : List String :=
  keysWithPre userId s.retryAttempts ++ keysWithPre userId s.lastRequestTime

/-- utils.js `clearUserAttempts`: every collected key is deleted from both
`retryAttempts` and `lastRequestTime`; `blockedOperations` and
`connectionAttempts` drop their members/keys starting with `userId` in
place. -/
def clearUserAttempts (userId : String) (s : RLState) : RLState :=
  let ks := clearKeys userId s
  { retryAttempts := ks.foldl (fun m k => aerase m k) s.retryAttempts,
    lastRequestTime := ks.foldl (fun m k => aerase m k) s.lastRequestTime,
    blockedOperations := sdropWithPre userId s.blockedOperations,
    connectionAttempts := adropWithPre userId s.connectionAttempts }

/-- ChatPage.jsx `getOrCreateChannel`: on a cache hit return the memoized
handle (zero creation invocations); on a miss run the creation operation
through `executeWithRetry` with operation type `channel-create` and
`maxRetries = 2`, memoizing the handle on success.  Returns
(result, cache, handler state, number of creation invocations). -/
def getOrCreateChannel {β : Type} (create : Nat → Except JSError β)
    (channelId userId : String) (now : Int) (cache : List (String × β))
    (s : RLState) :
    Except JSError β × List (String × β) × RLState × Nat :=
  match alookup cache channelId with
  | some ch => (Except.ok ch, cache, s, 0)
  | none =>
    match executeWithRetry create userId "channel-create" 2 now s 0 with
    | (Except.ok ch, s', n) => (Except.ok ch, aset cache channelId ch, s', n)
    | (Except.error e, s', n) => (Except.error e, cache, s', n)

/-! ### Basic facts about the embedded map and set operations -/

lemma alookup_aerase {α : Type} (m : List (String × α)) (k k' : String) :
    alookup (aerase m k) k' = if k = k' then none else alookup m k' := by
  induction m with
  | nil => simp [aerase, alookup]
  | cons p rest ih =>
    by_cases hp : p.1 = k
    · rw [aerase, if_pos hp, ih]
      by_cases hk : k = k'
      · simp [hk]
      · rw [if_neg hk, if_neg hk, alookup,
          if_neg (fun hc : p.1 = k' => hk (hp.symm.trans hc))]
    · rw [aerase, if_neg hp, alookup]
      by_cases hq : p.1 = k'
      · rw [if_pos hq]
        rw [if_neg (fun hc : k = k' => hp (hq.trans hc.symm)), alookup, if_pos hq]
      · rw [if_neg hq, ih, alookup, if_neg hq]

lemma alookup_aset_self {α : Type} (m : List (String × α)) (k : String) (v : α) :
    alookup (aset m k v) k = some v := by
  rw [aset, alookup, if_pos rfl]

lemma alookup_aset_ne {α : Type} (m : List (String × α)) (k k' : String) (v : α)
    (h : k ≠ k') : alookup (aset m k v) k' = alookup m k' := by
  rw [aset, alookup, if_neg h, alookup_aerase, if_neg h]

lemma getAttempt_aset (s : RLState) (lrt : List (String × Int))
    (ca : List (String × WSWindow)) (bo : List String) (k : String) (n : Nat) :
    getAttempt ⟨aset s.retryAttempts k n, lrt, ca, bo⟩ k = n := by
  rw [getAttempt]
  simp [alookup_aset_self]

lemma smem_sdel (s : List String) (k k' : String) :
    smem (sdel s k) k' = if k = k' then false else smem s k' := by
  induction s with
  | nil => simp [sdel, smem]
  | cons a rest ih =>
    by_cases ha : a = k
    · rw [sdel, if_pos ha, ih]
      by_cases hk : k = k'
      · simp [hk]
      · rw [if_neg hk, if_neg hk, smem]
        have : (a == k') = false := by
          simp [ha]
          exact fun hc => hk (ha ▸ hc)
        simp [this]
    · rw [sdel, if_neg ha, smem, ih, smem]
      by_cases hk : k = k'
      · rw [if_pos hk, if_pos hk]
        have : (a == k') = false := by
          simp
          exact fun hc => ha (hk ▸ hc.symm ▸ rfl)
        simp [this]
      · rw [if_neg hk, if_neg hk]

lemma smem_sadd_self (s : List String) (k : String) :
    smem (sadd s k) k = true := by
  rw [sadd]
  by_cases h : smem s k
  · rw [if_pos h]; exact h
  · rw [if_neg h]
    induction s with
    | nil => simp [smem]
    | cons a rest ih =>
      rw [List.cons_append, smem]
      by_cases ha : (a == k) = true
      · simp [ha]
      · rw [smem] at h
        simp only [ha, Bool.false_or]
        exact ih (by simpa [ha] using h)

/-! ### Shape facts about the two gates -/

/-- The handler state after the WebSocket gate and the generic gate, as left
behind by the entry of `executeWithRetry`. -/
def postGateState (u ty : String) (now : Int) (s : RLState) : RLState :=
  (shouldRateLimit u ty now (wsGateResult u ty now s).2).2

lemma shouldRateLimit_retryAttempts (u ty : String) (now : Int) (s : RLState) :
    ((shouldRateLimit u ty now s).2).retryAttempts = s.retryAttempts := by
  rw [shouldRateLimit]
  try dsimp only
  repeat' split
  all_goals rfl

lemma shouldRateLimit_connectionAttempts (u ty : String) (now : Int)
    (s : RLState) :
    ((shouldRateLimit u ty now s).2).connectionAttempts =
      s.connectionAttempts := by
  rw [shouldRateLimit]
  try dsimp only
  repeat' split
  all_goals rfl

lemma shouldRateLimit_blockedOperations (u ty : String) (now : Int)
    (s : RLState) :
    ((shouldRateLimit u ty now s).2).blockedOperations =
      s.blockedOperations := by
  rw [shouldRateLimit]
  try dsimp only
  repeat' split
  all_goals rfl

lemma shouldRateLimitWebSocket_retryAttempts (u ty : String) (now : Int)
    (s : RLState) :
    ((shouldRateLimitWebSocket u ty now s).2).retryAttempts =
      s.retryAttempts := by
  rw [shouldRateLimitWebSocket]
  try dsimp only
  repeat' split
  all_goals rfl

lemma shouldRateLimitWebSocket_blockedOperations (u ty : String) (now : Int)
    (s : RLState) :
    ((shouldRateLimitWebSocket u ty now s).2).blockedOperations =
      s.blockedOperations := by
  rw [shouldRateLimitWebSocket]
  try dsimp only
  repeat' split
  all_goals rfl

lemma wsGateResult_retryAttempts (u ty : String) (now : Int) (s : RLState) :
    ((wsGateResult u ty now s).2).retryAttempts = s.retryAttempts := by
  rw [wsGateResult]
  split
  · exact shouldRateLimitWebSocket_retryAttempts u ty now s
  · rfl

lemma wsGateResult_blockedOperations (u ty : String) (now : Int)
    (s : RLState) :
    ((wsGateResult u ty now s).2).blockedOperations = s.blockedOperations := by
  rw [wsGateResult]
  split
  · exact shouldRateLimitWebSocket_blockedOperations u ty now s
  · rfl

lemma postGateState_retryAttempts (u ty : String) (now : Int) (s : RLState) :
    (postGateState u ty now s).retryAttempts = s.retryAttempts := by
  rw [postGateState, shouldRateLimit_retryAttempts, wsGateResult_retryAttempts]

lemma postGateState_blockedOperations (u ty : String) (now : Int)
    (s : RLState) :
    (postGateState u ty now s).blockedOperations = s.blockedOperations := by
  rw [postGateState, shouldRateLimit_blockedOperations,
      wsGateResult_blockedOperations]

lemma postGateState_connectionAttempts (u ty : String) (now : Int)
    (s : RLState) :
    (postGateState u ty now s).connectionAttempts =
      ((wsGateResult u ty now s).2).connectionAttempts := by
  rw [postGateState, shouldRateLimit_connectionAttempts]

/-- When the operation type is not WebSocket-flavoured the gate is a no-op. -/
lemma wsGateResult_not_ws (u ty : String) (now : Int) (s : RLState)
    (h : wsOperationType ty = false) :
    wsGateResult u ty now s = (false, s) := by
  rw [wsGateResult, if_neg (by simp [h])]

/-- Consulting the WebSocket gate with no stored window creates a fresh
window with one counted attempt and passes. -/
lemma wsGate_fresh (u ty : String) (now : Int) (s : RLState)
    (h : alookup s.connectionAttempts (u ++ "-ws-" ++ ty) = none) :
    shouldRateLimitWebSocket u ty now s =
      (false, { s with connectionAttempts := aset s.connectionAttempts (u ++ "-ws-" ++ ty) ⟨1, now⟩ }) := by
  rw [shouldRateLimitWebSocket]
  try dsimp only
  rw [h]
  norm_num

/-- Consulting the WebSocket gate with a stored window that is inside the
5-minute span and below the cap increments the count and passes. -/
lemma wsGate_under (u ty : String) (now t0 : Int) (c : Nat) (s : RLState)
    (h : alookup s.connectionAttempts (u ++ "-ws-" ++ ty) = some ⟨c, t0⟩)
    (hw : ¬ now - t0 > 300000) (hc : c < 5) :
    shouldRateLimitWebSocket u ty now s =
      (false, { s with connectionAttempts := aset s.connectionAttempts (u ++ "-ws-" ++ ty) ⟨c + 1, t0⟩ }) := by
  rw [shouldRateLimitWebSocket]
  try dsimp only
  rw [h]
  dsimp only [Option.getD_some]
  rw [if_neg hw, if_neg (by omega)]

/-- Consulting the WebSocket gate with a stored window that is inside the
5-minute span and at (or above) the cap blocks and leaves the state alone. -/
lemma wsGate_blocked (u ty : String) (now t0 : Int) (c : Nat) (s : RLState)
    (h : alookup s.connectionAttempts (u ++ "-ws-" ++ ty) = some ⟨c, t0⟩)
    (hw : ¬ now - t0 > 300000) (hc : 5 ≤ c) :
    shouldRateLimitWebSocket u ty now s = (true, s) := by
  rw [shouldRateLimitWebSocket]
  try dsimp only
  rw [h]
  dsimp only [Option.getD_some]
  rw [if_neg hw, if_pos (by omega)]

/-- Consulting the WebSocket gate with a stored window older than 5 minutes
deletes the window and passes. -/
lemma wsGate_expired (u ty : String) (now t0 : Int) (c : Nat) (s : RLState)
    (h : alookup s.connectionAttempts (u ++ "-ws-" ++ ty) = some ⟨c, t0⟩)
    (hw : now - t0 > 300000) :
    shouldRateLimitWebSocket u ty now s =
      (false, { s with connectionAttempts := aerase s.connectionAttempts (u ++ "-ws-" ++ ty) }) := by
  rw [shouldRateLimitWebSocket]
  try dsimp only
  rw [h]
  dsimp only [Option.getD_some]
  rw [if_pos hw]

/-! ### One-step unfolding lemmas for `executeWithRetry` -/

/-- The entry key of `executeWithRetry`. -/
def opKey (u ty : String) : String := u ++ "-" ++ ty

lemma ewr_ws_blocked {α : Type} (op : Nat → Except JSError α) (u ty : String)
    (mr : Nat) (now : Int) (s : RLState) (calls : Nat)
    (hg : (wsGateResult u ty now s).1 = true) :
    executeWithRetry op u ty mr now s calls =
      (Except.error wsLimitError, (wsGateResult u ty now s).2, calls) := by
  rw [executeWithRetry.eq_def]
  simp [hg]

lemma ewr_success {α : Type} (op : Nat → Except JSError α) (u ty : String)
    (mr : Nat) (now : Int) (s : RLState) (calls : Nat) (v : α)
    (hg : (wsGateResult u ty now s).1 = false)
    (hop : op calls = Except.ok v) :
    executeWithRetry op u ty mr now s calls =
      (Except.ok v,
       { postGateState u ty now s with
           retryAttempts :=
             aerase (postGateState u ty now s).retryAttempts (opKey u ty),
           blockedOperations :=
             sdel (postGateState u ty now s).blockedOperations (opKey u ty) },
       calls + 1) := by
  rw [executeWithRetry.eq_def]
  simp [hg, hop, postGateState, opKey]

lemma ewr_retry {α : Type} (op : Nat → Except JSError α) (u ty : String)
    (mr : Nat) (now : Int) (s : RLState) (calls : Nat) (e : JSError)
    (hg : (wsGateResult u ty now s).1 = false)
    (hop : op calls = Except.error e)
    (hcls : (isRateLimitError e || isWebSocketError e) = true)
    (hlt : getAttempt s (opKey u ty) < mr) :
    executeWithRetry op u ty mr now s calls =
      executeWithRetry op u ty mr now
        { postGateState u ty now s with
            retryAttempts :=
              aset (postGateState u ty now s).retryAttempts (opKey u ty)
                (getAttempt s (opKey u ty) + 1) }
        (calls + 1) := by
  rw [executeWithRetry.eq_def]
  rw [opKey] at hlt
  simp [hg, hop, hcls, hlt, postGateState, opKey]

lemma ewr_terminal {α : Type} (op : Nat → Except JSError α) (u ty : String)
    (mr : Nat) (now : Int) (s : RLState) (calls : Nat) (e : JSError)
    (hg : (wsGateResult u ty now s).1 = false)
    (hop : op calls = Except.error e)
    (hcls : (isRateLimitError e || isWebSocketError e) = true)
    (hge : ¬ getAttempt s (opKey u ty) < mr) :
    executeWithRetry op u ty mr now s calls =
      (Except.error
         (if isWebSocketError e then videoFailedError
          else rateLimitExceededError),
       { postGateState u ty now s with
           blockedOperations :=
             sadd (postGateState u ty now s).blockedOperations (opKey u ty) },
       calls + 1) := by
  rw [executeWithRetry.eq_def]
  rw [opKey] at hge
  simp only [hg, Bool.false_eq_true, if_false, hop, hcls, if_true, if_neg hge,
    postGateState, opKey]

lemma ewr_hard {α : Type} (op : Nat → Except JSError α) (u ty : String)
    (mr : Nat) (now : Int) (s : RLState) (calls : Nat) (e : JSError)
    (hg : (wsGateResult u ty now s).1 = false)
    (hop : op calls = Except.error e)
    (hcls : (isRateLimitError e || isWebSocketError e) = false) :
    executeWithRetry op u ty mr now s calls =
      (Except.error e, postGateState u ty now s, calls + 1) := by
  rw [executeWithRetry.eq_def]
  simp [hg, hop, hcls, postGateState]

/-! ### Facts about `shouldRateLimit` -/

/-- The entry key used by the generic gate and the retry coordinator. -/
lemma srl_true_state (u ty : String) (now : Int) (s : RLState)
    (h : (shouldRateLimit u ty now s).1 = true) :
    (shouldRateLimit u ty now s).2 = s := by
  rw [shouldRateLimit] at h ⊢
  split_ifs at h ⊢ with h1 h2 <;> simp_all

lemma srl_false_state (u ty : String) (now : Int) (s : RLState)
    (h : (shouldRateLimit u ty now s).1 = false) :
    (shouldRateLimit u ty now s).2 =
      { s with lastRequestTime := aset s.lastRequestTime (opKey u ty) now } := by
  rw [shouldRateLimit] at h ⊢
  rw [opKey]
  split_ifs at h ⊢ with h1 h2
  simp_all

lemma srl_blocked (u ty : String) (now : Int) (s : RLState)
    (hb : smem s.blockedOperations (opKey u ty) = true) :
    shouldRateLimit u ty now s = (true, s) := by
  rw [opKey] at hb
  rw [shouldRateLimit]
  simp [hb]

lemma srl_pass_none (u ty : String) (now : Int) (s : RLState)
    (hb : smem s.blockedOperations (opKey u ty) = false)
    (hl : alookup s.lastRequestTime (opKey u ty) = none) :
    shouldRateLimit u ty now s =
      (false,
       { s with lastRequestTime := aset s.lastRequestTime (opKey u ty) now }) := by
  rw [opKey] at hb hl ⊢
  rw [shouldRateLimit]
  simp [hb, hl, withinGapB]

lemma srl_within_gap (u ty : String) (now t1 : Int) (s : RLState)
    (hb : smem s.blockedOperations (opKey u ty) = false)
    (hl : alookup s.lastRequestTime (opKey u ty) = some t1)
    (ht : t1 ≠ 0) (hgap : now - t1 < intervalFor ty) :
    shouldRateLimit u ty now s = (true, s) := by
  rw [opKey] at hb hl
  rw [shouldRateLimit]
  simp [hb, hl, ht, hgap, withinGapB]

lemma srl_gap_over (u ty : String) (now t1 : Int) (s : RLState)
    (hb : smem s.blockedOperations (opKey u ty) = false)
    (hl : alookup s.lastRequestTime (opKey u ty) = some t1)
    (hgap : ¬ now - t1 < intervalFor ty) :
    shouldRateLimit u ty now s =
      (false,
       { s with lastRequestTime := aset s.lastRequestTime (opKey u ty) now }) := by
  rw [opKey] at hb hl ⊢
  rw [shouldRateLimit]
  by_cases ht : t1 = 0
  · simp [hb, hl, ht, withinGapB]
  · simp [hb, hl, ht, hgap, withinGapB]

/-! ### Sequential-call harness for the WebSocket gate -/

/-- Run `shouldRateLimitWebSocket` once per timestamp in `ts`, threading the
state; returns the list of gate verdicts and the final state. -/
def wsCalls (u ty : String) : List Int → RLState → List Bool × RLState
  | [], s => ([], s)
  | t :: ts, s =>
    let r := shouldRateLimitWebSocket u ty t s
    let rest := wsCalls u ty ts r.2
    (r.1 :: rest.1, rest.2)

/-! ### Claim C4 -/

/-- Claim C4, counterexample: at attempt count `a = 5` with jitter draw `0`
(which lies in `[0, 1000)`), the claimed lower bound `2000 * 2^a ≤ backoff(a)`
fails: the base delay is capped at `60000 < 64000 = 2000 * 2^5`. -/
theorem C4_counterexample :
    (0 : ℚ) ≤ 0 ∧ (0 : ℚ) < 1000 ∧
      ¬ (2000 * 2 ^ 5 ≤ calculateBackoffDelay 5 0) := by
  refine ⟨le_refl 0, by norm_num, ?_⟩
  rw [calculateBackoffDelay]
  norm_num

/-- Claim C4 (amended): for every attempt count `a` and jitter draw
`j ∈ [0, 1000)`, the bounds `2000 * 2^a ≤ backoff(a) < 2000 * 2^a + 1000`
hold for `a ≤ 4`; for every `a`,
`min(2000 * 2^a, 60000) ≤ backoff(a) < min(2000 * 2^a, 60000) + 1000` and
`backoff(a) ≤ 61000`. -/
theorem C4_backoff_range (a : Nat) (j : ℚ) (hj0 : 0 ≤ j) (hj1 : j < 1000) :
    (a ≤ 4 → 2000 * 2 ^ a ≤ calculateBackoffDelay a j ∧
      calculateBackoffDelay a j < 2000 * 2 ^ a + 1000) ∧
    min (2000 * 2 ^ a : ℚ) 60000 ≤ calculateBackoffDelay a j ∧
    calculateBackoffDelay a j < min (2000 * 2 ^ a : ℚ) 60000 + 1000 ∧
    calculateBackoffDelay a j ≤ 61000 := by
  rw [calculateBackoffDelay]
  refine ⟨?_, by linarith, by linarith, ?_⟩
  · intro ha
    have h16 : (2 : ℚ) ^ a ≤ 16 := by
      interval_cases a <;> norm_num
    rw [min_eq_left (by linarith)]
    constructor <;> linarith
  · have hmr := min_le_right (2000 * 2 ^ a : ℚ) 60000
    linarith

/-- Witness for C4_backoff_range at `a = 3`, `j = 1/2`. -/
theorem C4_backoff_range_witness :
    calculateBackoffDelay 3 (1 / 2) ≤ 61000 :=
  (C4_backoff_range 3 (1 / 2) (by norm_num) (by norm_num)).2.2.2

/-! ### Claim C6 -/

/-- Claim C6, counterexample: with a first call at time `0` on a fresh
handler, a second call only `1 ms` later (well inside the 2000 ms default
interval) is NOT blocked, because the stored timestamp `0` is falsy in the
JS test `lastRequest && (now - lastRequest) < interval`.  The claimed
(not-blocked, then blocked) pattern therefore fails at time zero. -/
theorem C6_counterexample :
    (shouldRateLimit "u" "default" 0 emptyRL).1 = false ∧
    (shouldRateLimit "u" "default" 1
        (shouldRateLimit "u" "default" 0 emptyRL).2).1 = false := by
  constructor <;> rfl

/-- Claim C6 (amended): `shouldRateLimit` updates `lastRequestTime` for the
key exactly when it returns not-blocked and never when it returns blocked;
and for a key that is not in the blocked set and has no stored timestamp,
calling the gate at a nonzero time `t1`, then within the interval at `t2`,
then at `t3` past the interval yields (not-blocked, blocked with the state
unchanged, not-blocked). -/
theorem C6_gate_spacing :
    (∀ (u ty : String) (now : Int) (s : RLState),
      ((shouldRateLimit u ty now s).1 = true →
        (shouldRateLimit u ty now s).2 = s) ∧
      ((shouldRateLimit u ty now s).1 = false →
        (shouldRateLimit u ty now s).2 =
          { s with lastRequestTime := aset s.lastRequestTime (opKey u ty) now })) ∧
    (∀ (u ty : String) (t1 t2 t3 : Int) (s : RLState),
      smem s.blockedOperations (opKey u ty) = false →
      alookup s.lastRequestTime (opKey u ty) = none →
      t1 ≠ 0 →
      t2 - t1 < intervalFor ty →
      ¬ t3 - t1 < intervalFor ty →
      (shouldRateLimit u ty t1 s).1 = false ∧
      shouldRateLimit u ty t2 (shouldRateLimit u ty t1 s).2 =
        ((true : Bool), (shouldRateLimit u ty t1 s).2) ∧
      (shouldRateLimit u ty t3 (shouldRateLimit u ty t1 s).2).1 = false) := by
  constructor
  · intro u ty now s
    exact ⟨srl_true_state u ty now s, srl_false_state u ty now s⟩
  · intro u ty t1 t2 t3 s hb hl ht1 h2 h3
    have e1 : shouldRateLimit u ty t1 s =
        (false, { s with lastRequestTime := aset s.lastRequestTime (opKey u ty) t1 }) :=
      srl_pass_none u ty t1 s hb hl
    have hb1 : smem ({ s with lastRequestTime := aset s.lastRequestTime (opKey u ty) t1 } : RLState).blockedOperations (opKey u ty) = false := hb
    have hl1 : alookup ({ s with lastRequestTime := aset s.lastRequestTime (opKey u ty) t1 } : RLState).lastRequestTime (opKey u ty) = some t1 := alookup_aset_self _ _ _
    refine ⟨by rw [e1], ?_, ?_⟩
    · rw [e1]
      exact srl_within_gap u ty t2 t1 _ hb1 hl1 ht1 h2
    · rw [e1]
      rw [srl_gap_over u ty t3 t1 _ hb1 hl1 h3]

/-- Witness for C6_gate_spacing: the three-call pattern at times 5, 6, 3000
for the default operation type on a fresh handler. -/
theorem C6_gate_spacing_witness :
    (shouldRateLimit "u" "default" 5 emptyRL).1 = false ∧
    shouldRateLimit "u" "default" 6 (shouldRateLimit "u" "default" 5 emptyRL).2 =
      ((true : Bool), (shouldRateLimit "u" "default" 5 emptyRL).2) ∧
    (shouldRateLimit "u" "default" 3000
        (shouldRateLimit "u" "default" 5 emptyRL).2).1 = false :=
  C6_gate_spacing.2 "u" "default" 5 6 3000 emptyRL (by rfl) (by rfl)
    (by decide) (by decide) (by decide)

/-! ### Claim C3 -/

/-- Claim C3: for a (subject, connectionType) with no stored window, five
calls inside the 5-minute window all pass; the sixth (still inside the
window) is blocked and leaves both the count and the whole state unchanged;
and the first call after the window has fully elapsed passes and deletes the
window, giving the subject a fresh 5-attempt allowance. -/
theorem C3_ws_window (u ty : String) (t1 t2 t3 t4 t5 t6 t7 : Int) (s : RLState)
    (h0 : alookup s.connectionAttempts (u ++ "-ws-" ++ ty) = none)
    (h2 : t2 - t1 ≤ 300000) (h3 : t3 - t1 ≤ 300000) (h4 : t4 - t1 ≤ 300000)
    (h5 : t5 - t1 ≤ 300000) (h6 : t6 - t1 ≤ 300000) (h7 : t7 - t1 > 300000) :
    (wsCalls u ty [t1, t2, t3, t4, t5, t6] s).1 =
      [false, false, false, false, false, true] ∧
    (wsCalls u ty [t1, t2, t3, t4, t5, t6] s).2 =
      (wsCalls u ty [t1, t2, t3, t4, t5] s).2 ∧
    alookup ((wsCalls u ty [t1, t2, t3, t4, t5, t6] s).2).connectionAttempts
      (u ++ "-ws-" ++ ty) = some ⟨5, t1⟩ ∧
    (shouldRateLimitWebSocket u ty t7
        (wsCalls u ty [t1, t2, t3, t4, t5, t6] s).2).1 = false ∧
    alookup ((shouldRateLimitWebSocket u ty t7
        (wsCalls u ty [t1, t2, t3, t4, t5, t6] s).2).2).connectionAttempts
      (u ++ "-ws-" ++ ty) = none := by
  have e1 := wsGate_fresh u ty t1 s h0
  set key := u ++ "-ws-" ++ ty with hkey
  set s1 : RLState :=
    { s with connectionAttempts := aset s.connectionAttempts key ⟨1, t1⟩ }
    with hs1
  have l1 : alookup s1.connectionAttempts key = some ⟨1, t1⟩ :=
    alookup_aset_self _ _ _
  have e2 := wsGate_under u ty t2 t1 1 s1 l1 (by omega) (by omega)
  set s2 : RLState :=
    { s1 with connectionAttempts := aset s1.connectionAttempts key ⟨2, t1⟩ }
    with hs2
  have l2 : alookup s2.connectionAttempts key = some ⟨2, t1⟩ :=
    alookup_aset_self _ _ _
  have e3 := wsGate_under u ty t3 t1 2 s2 l2 (by omega) (by omega)
  set s3 : RLState :=
    { s2 with connectionAttempts := aset s2.connectionAttempts key ⟨3, t1⟩ }
    with hs3
  have l3 : alookup s3.connectionAttempts key = some ⟨3, t1⟩ :=
    alookup_aset_self _ _ _
  have e4 := wsGate_under u ty t4 t1 3 s3 l3 (by omega) (by omega)
  set s4 : RLState :=
    { s3 with connectionAttempts := aset s3.connectionAttempts key ⟨4, t1⟩ }
    with hs4
  have l4 : alookup s4.connectionAttempts key = some ⟨4, t1⟩ :=
    alookup_aset_self _ _ _
  have e5 := wsGate_under u ty t5 t1 4 s4 l4 (by omega) (by omega)
  set s5 : RLState :=
    { s4 with connectionAttempts := aset s4.connectionAttempts key ⟨5, t1⟩ }
    with hs5
  have l5 : alookup s5.connectionAttempts key = some ⟨5, t1⟩ :=
    alookup_aset_self _ _ _
  have e6 := wsGate_blocked u ty t6 t1 5 s5 l5 (by omega) (by omega)
  have e7 := wsGate_expired u ty t7 t1 5 s5 l5 (by omega)
  simp only [wsCalls, e1, e2, e3, e4, e5, e6, e7]
  refine ⟨trivial, trivial, l5, trivial, ?_⟩
  rw [alookup_aerase, if_pos rfl]

/-- Witness for C3_ws_window: six calls at times 10..15 and a seventh at
time 300011 on a fresh handler. -/
theorem C3_ws_window_witness :
    (wsCalls "u" "connect" [10, 11, 12, 13, 14, 15] emptyRL).1 =
      [false, false, false, false, false, true] ∧
    (wsCalls "u" "connect" [10, 11, 12, 13, 14, 15] emptyRL).2 =
      (wsCalls "u" "connect" [10, 11, 12, 13, 14] emptyRL).2 ∧
    alookup ((wsCalls "u" "connect" [10, 11, 12, 13, 14, 15] emptyRL).2).connectionAttempts
      ("u" ++ "-ws-" ++ "connect") = some ⟨5, 10⟩ ∧
    (shouldRateLimitWebSocket "u" "connect" 300011
        (wsCalls "u" "connect" [10, 11, 12, 13, 14, 15] emptyRL).2).1 = false ∧
    alookup ((shouldRateLimitWebSocket "u" "connect" 300011
        (wsCalls "u" "connect" [10, 11, 12, 13, 14, 15] emptyRL).2).2).connectionAttempts
      ("u" ++ "-ws-" ++ "connect") = none :=
  C3_ws_window "u" "connect" 10 11 12 13 14 15 300011 emptyRL rfl
    (by omega) (by omega) (by omega) (by omega) (by omega) (by omega)

/-! ### Counting the invocations of the wrapped operation -/

lemma bool_ne_true {b : Bool} (h : ¬ b = true) : b = false := by
  cases b
  · rfl
  · exact absurd rfl h

/-- The state passed to the recursive call of `executeWithRetry` on a retry. -/
def retryState (u ty : String) (now : Int) (s : RLState) : RLState :=
  { postGateState u ty now s with
      retryAttempts :=
        aset (postGateState u ty now s).retryAttempts (opKey u ty)
          (getAttempt s (opKey u ty) + 1) }

lemma getAttempt_retryState (u ty : String) (now : Int) (s : RLState) :
    getAttempt (retryState u ty now s) (opKey u ty) =
      getAttempt s (opKey u ty) + 1 := by
  rw [retryState, getAttempt]
  try dsimp only
  rw [alookup_aset_self]
  rfl

lemma ewr_retry' {α : Type} (op : Nat → Except JSError α) (u ty : String)
    (mr : Nat) (now : Int) (s : RLState) (calls : Nat) (e : JSError)
    (hg : (wsGateResult u ty now s).1 = false)
    (hop : op calls = Except.error e)
    (hcls : (isRateLimitError e || isWebSocketError e) = true)
    (hlt : getAttempt s (opKey u ty) < mr) :
    executeWithRetry op u ty mr now s calls =
      executeWithRetry op u ty mr now (retryState u ty now s) (calls + 1) := by
  rw [ewr_retry op u ty mr now s calls e hg hop hcls hlt, retryState]

lemma ewr_count_le_aux {α : Type} (op : Nat → Except JSError α)
    (u ty : String) (mr : Nat) (now : Int) (n : Nat) :
    ∀ (s : RLState) (calls : Nat),
      mr + 1 - getAttempt s (opKey u ty) ≤ n →
      (executeWithRetry op u ty mr now s calls).2.2 ≤
        calls + 1 + (mr - getAttempt s (opKey u ty)) := by
  induction n with
  | zero =>
    intro s calls hn
    cases hg : (wsGateResult u ty now s).1 with
    | true =>
      rw [ewr_ws_blocked op u ty mr now s calls hg]
      try dsimp only
      omega
    | false =>
      cases hop : op calls with
      | ok v =>
        rw [ewr_success op u ty mr now s calls v hg hop]
        try dsimp only
        omega
      | error e =>
        by_cases hcls : (isRateLimitError e || isWebSocketError e) = true
        · by_cases hlt : getAttempt s (opKey u ty) < mr
          · exact absurd hlt (by omega)
          · rw [ewr_terminal op u ty mr now s calls e hg hop hcls hlt]
            try dsimp only
            omega
        · rw [ewr_hard op u ty mr now s calls e hg hop (bool_ne_true hcls)]
          try dsimp only
          omega
  | succ n ih =>
    intro s calls hn
    cases hg : (wsGateResult u ty now s).1 with
    | true =>
      rw [ewr_ws_blocked op u ty mr now s calls hg]
      try dsimp only
      omega
    | false =>
      cases hop : op calls with
      | ok v =>
        rw [ewr_success op u ty mr now s calls v hg hop]
        try dsimp only
        omega
      | error e =>
        by_cases hcls : (isRateLimitError e || isWebSocketError e) = true
        · by_cases hlt : getAttempt s (opKey u ty) < mr
          · rw [ewr_retry' op u ty mr now s calls e hg hop hcls hlt]
            have hrec := ih (retryState u ty now s) (calls + 1)
              (by rw [getAttempt_retryState]; omega)
            rw [getAttempt_retryState] at hrec
            try dsimp only
            omega
          · rw [ewr_terminal op u ty mr now s calls e hg hop hcls hlt]
            try dsimp only
            omega
        · rw [ewr_hard op u ty mr now s calls e hg hop (bool_ne_true hcls)]
          try dsimp only
          omega

lemma ewr_count_le {α : Type} (op : Nat → Except JSError α) (u ty : String)
    (mr : Nat) (now : Int) (s : RLState) (calls : Nat) :
    (executeWithRetry op u ty mr now s calls).2.2 ≤
      calls + 1 + (mr - getAttempt s (opKey u ty)) :=
  ewr_count_le_aux op u ty mr now (mr + 1 - getAttempt s (opKey u ty)) s calls
    (le_refl _)

lemma ewr_count_mono_aux {α : Type} (op : Nat → Except JSError α)
    (u ty : String) (mr : Nat) (now : Int) (n : Nat) :
    ∀ (s : RLState) (calls : Nat),
      mr + 1 - getAttempt s (opKey u ty) ≤ n →
      calls ≤ (executeWithRetry op u ty mr now s calls).2.2 := by
  induction n with
  | zero =>
    intro s calls hn
    cases hg : (wsGateResult u ty now s).1 with
    | true =>
      rw [ewr_ws_blocked op u ty mr now s calls hg]
    | false =>
      cases hop : op calls with
      | ok v =>
        rw [ewr_success op u ty mr now s calls v hg hop]
        try dsimp only
        omega
      | error e =>
        by_cases hcls : (isRateLimitError e || isWebSocketError e) = true
        · by_cases hlt : getAttempt s (opKey u ty) < mr
          · exact absurd hlt (by omega)
          · rw [ewr_terminal op u ty mr now s calls e hg hop hcls hlt]
            try dsimp only
            omega
        · rw [ewr_hard op u ty mr now s calls e hg hop (bool_ne_true hcls)]
          try dsimp only
          omega
  | succ n ih =>
    intro s calls hn
    cases hg : (wsGateResult u ty now s).1 with
    | true =>
      rw [ewr_ws_blocked op u ty mr now s calls hg]
    | false =>
      cases hop : op calls with
      | ok v =>
        rw [ewr_success op u ty mr now s calls v hg hop]
        try dsimp only
        omega
      | error e =>
        by_cases hcls : (isRateLimitError e || isWebSocketError e) = true
        · by_cases hlt : getAttempt s (opKey u ty) < mr
          · rw [ewr_retry' op u ty mr now s calls e hg hop hcls hlt]
            have hrec := ih (retryState u ty now s) (calls + 1)
              (by rw [getAttempt_retryState]; omega)
            try dsimp only
            omega
          · rw [ewr_terminal op u ty mr now s calls e hg hop hcls hlt]
            try dsimp only
            omega
        · rw [ewr_hard op u ty mr now s calls e hg hop (bool_ne_true hcls)]
          try dsimp only
          omega

lemma ewr_count_mono {α : Type} (op : Nat → Except JSError α) (u ty : String)
    (mr : Nat) (now : Int) (s : RLState) (calls : Nat) :
    calls ≤ (executeWithRetry op u ty mr now s calls).2.2 :=
  ewr_count_mono_aux op u ty mr now (mr + 1 - getAttempt s (opKey u ty)) s
    calls (le_refl _)

/-! ### Claim C7 -/

/-- Claim C7: every `executeWithRetry` call terminates (it is a total
function of this development, defined by well-founded recursion on
`maxRetries + 1 - storedAttempt`, mirroring the strictly increasing stored
attempt count of the source) and it invokes the wrapped operation at most
`maxRetries + 1` times beyond the `calls` already performed, i.e. the call
performs at most `maxRetries` recursive retries on top of the initial
attempt. -/
theorem C7_retry_budget {α : Type} (op : Nat → Except JSError α)
    (u ty : String) (mr : Nat) (now : Int) (s : RLState) (calls : Nat) :
    (executeWithRetry op u ty mr now s calls).2.2 ≤ calls + mr + 1 := by
  have h := ewr_count_le op u ty mr now s calls
  try dsimp only
  omega

/-! ### Claim C5 -/

/-- Claim C5: when the WebSocket gate does not pre-block the call, an
operation that fails with an error matching neither indicator list is
invoked exactly once and the call rejects with the original error object
unmodified — no retry is performed. -/
theorem C5_hard_failure {α : Type} (op : Nat → Except JSError α)
    (u ty : String) (mr : Nat) (now : Int) (s : RLState) (e : JSError)
    (hg : (wsGateResult u ty now s).1 = false)
    (hop : op 0 = Except.error e)
    (hrl : isRateLimitError e = false)
    (hws : isWebSocketError e = false) :
    (executeWithRetry op u ty mr now s 0).1 = Except.error e ∧
    (executeWithRetry op u ty mr now s 0).2.2 = 1 := by
  rw [ewr_hard op u ty mr now s 0 e hg hop (by rw [hrl, hws]; rfl)]
  exact ⟨rfl, rfl⟩

/-- Witness for C5_hard_failure: an operation failing with message "boom"
(matching no indicator) on a fresh handler. -/
theorem C5_hard_failure_witness :
    (executeWithRetry (fun _ => (Except.error (mkError "boom") : Except JSError Nat))
        "u" "default" 3 100 emptyRL 0).1 = Except.error (mkError "boom") ∧
    (executeWithRetry (fun _ => (Except.error (mkError "boom") : Except JSError Nat))
        "u" "default" 3 100 emptyRL 0).2.2 = 1 :=
  C5_hard_failure (fun _ => (Except.error (mkError "boom") : Except JSError Nat))
    "u" "default" 3 100 emptyRL (mkError "boom") rfl rfl (by decide) (by decide)

/-! ### Claim C1 -/

/-- Claim C1, counterexample: a state whose BlockedSet holds the key
`u-default` on which `executeWithRetry` neither fails nor skips the
operation: the wrapped operation (which succeeds with `42`) is invoked once,
the call returns `ok 42`, and the block and retry state are cleared.  This
refutes "every executeWithRetry call for that key fails immediately without
invoking the wrapped operation". -/
theorem C1_counterexample :
    smem (RLState.mk [("u-default", 3)] [] [] ["u-default"]).blockedOperations
      (opKey "u" "default") = true ∧
    executeWithRetry (fun _ => Except.ok (42 : Nat)) "u" "default" 3 1000
      ⟨[("u-default", 3)], [], [], ["u-default"]⟩ 0 =
      (Except.ok 42, ⟨[], [], [], []⟩, 1) := by
  constructor
  · rfl
  · rw [ewr_success (fun _ => Except.ok (42 : Nat)) "u" "default" 3 1000
      ⟨[("u-default", 3)], [], [], ["u-default"]⟩ 0 42 rfl rfl]
    rfl

/-- Claim C1 (amended): a key in the BlockedSet does NOT make
`executeWithRetry` fail immediately: for a non-WebSocket operation type the
generic gate reports blocked, which only imposes a backoff sleep, and the
wrapped operation is still invoked (the invocation count is at least 1).
If that invocation succeeds, the call returns its result after exactly one
invocation and removes the key from the BlockedSet.  In particular the
`(maxRetries+1)`-th call after maxRetries classified-retryable failures
still invokes the operation once rather than failing pre-blocked. -/
theorem C1_blocked_still_invokes {α : Type} (op : Nat → Except JSError α)
    (u ty : String) (mr : Nat) (now : Int) (s : RLState)
    (_hb : smem s.blockedOperations (opKey u ty) = true)
    (hws : wsOperationType ty = false) :
    1 ≤ (executeWithRetry op u ty mr now s 0).2.2 ∧
    (∀ v : α, op 0 = Except.ok v →
      (executeWithRetry op u ty mr now s 0).1 = Except.ok v ∧
      (executeWithRetry op u ty mr now s 0).2.2 = 1 ∧
      smem ((executeWithRetry op u ty mr now s 0).2.1).blockedOperations
        (opKey u ty) = false) := by
  have hg : (wsGateResult u ty now s).1 = false := by
    rw [wsGateResult_not_ws u ty now s hws]
  constructor
  · cases hop : op 0 with
    | ok v =>
      rw [ewr_success op u ty mr now s 0 v hg hop]
    | error e =>
      by_cases hcls : (isRateLimitError e || isWebSocketError e) = true
      · by_cases hlt : getAttempt s (opKey u ty) < mr
        · rw [ewr_retry' op u ty mr now s 0 e hg hop hcls hlt]
          exact ewr_count_mono op u ty mr now (retryState u ty now s) 1
        · rw [ewr_terminal op u ty mr now s 0 e hg hop hcls hlt]
      · rw [ewr_hard op u ty mr now s 0 e hg hop (bool_ne_true hcls)]
  · intro v hop
    rw [ewr_success op u ty mr now s 0 v hg hop]
    refine ⟨rfl, rfl, ?_⟩
    have hpb : (postGateState u ty now s).blockedOperations =
        s.blockedOperations := postGateState_blockedOperations u ty now s
    show smem (sdel (postGateState u ty now s).blockedOperations (opKey u ty))
      (opKey u ty) = false
    rw [smem_sdel, if_pos rfl]

/-- Witness for C1_blocked_still_invokes: the blocked key `u-default` with a
succeeding operation. -/
theorem C1_blocked_still_invokes_witness :
    1 ≤ (executeWithRetry (fun _ => Except.ok (7 : Nat)) "u" "default" 3 1000
        ⟨[("u-default", 3)], [], [], ["u-default"]⟩ 0).2.2 :=
  (C1_blocked_still_invokes (fun _ => Except.ok (7 : Nat)) "u" "default" 3
    1000 ⟨[("u-default", 3)], [], [], ["u-default"]⟩ (by decide) (by decide)).1

/-! ### Claim C9 -/

/-- Claim C9: the terminal block path retains the stored attempt count.  For
a non-WebSocket operation type, if the stored attempt count for the key
already equals `maxRetries` (as the terminal block path of a previous call
leaves it, since that path never clears `retryAttempts`), then a call whose
operation fails once with a classified-retryable error fails terminally
immediately: the operation is invoked exactly once (zero retries), the
terminal block error is returned, the stored attempt count is still
`maxRetries` afterwards, and the key is (re-)added to the BlockedSet. -/
theorem C9_attempt_retained {α : Type} (op : Nat → Except JSError α)
    (u ty : String) (mr : Nat) (now : Int) (s : RLState) (e : JSError)
    (hws : wsOperationType ty = false)
    (ha : getAttempt s (opKey u ty) = mr)
    (hop : op 0 = Except.error e)
    (hcls : (isRateLimitError e || isWebSocketError e) = true) :
    (executeWithRetry op u ty mr now s 0).1 =
      Except.error
        (if isWebSocketError e then videoFailedError
         else rateLimitExceededError) ∧
    (executeWithRetry op u ty mr now s 0).2.2 = 1 ∧
    getAttempt (executeWithRetry op u ty mr now s 0).2.1 (opKey u ty) = mr ∧
    smem ((executeWithRetry op u ty mr now s 0).2.1).blockedOperations
      (opKey u ty) = true := by
  have hg : (wsGateResult u ty now s).1 = false := by
    rw [wsGateResult_not_ws u ty now s hws]
  rw [ewr_terminal op u ty mr now s 0 e hg hop hcls (by omega)]
  refine ⟨rfl, rfl, ?_, ?_⟩
  · show getAttempt
      { postGateState u ty now s with
          blockedOperations :=
            sadd (postGateState u ty now s).blockedOperations (opKey u ty) }
      (opKey u ty) = mr
    rw [getAttempt]
    dsimp only
    rw [postGateState_retryAttempts]
    exact ha
  · show smem (sadd (postGateState u ty now s).blockedOperations (opKey u ty))
      (opKey u ty) = true
    exact smem_sadd_self _ _

/-- Witness for C9_attempt_retained: stored attempt count 2 with
`maxRetries = 2` and an operation failing with a rate-limit-classified
message. -/
theorem C9_attempt_retained_witness :
    (executeWithRetry
        (fun _ => (Except.error (mkError "Rate limit hit") : Except JSError Nat))
        "u" "default" 2 1000
        ⟨[("u-default", 2)], [], [], ["u-default"]⟩ 0).2.2 = 1 :=
  (C9_attempt_retained
    (fun _ => (Except.error (mkError "Rate limit hit") : Except JSError Nat))
    "u" "default" 2 1000 ⟨[("u-default", 2)], [], [], ["u-default"]⟩
    (mkError "Rate limit hit") (by decide) (by decide) rfl (by decide)).2.1

/-! ### Claim C2 -/

lemma retryState_connectionAttempts (u ty : String) (now : Int)
    (s : RLState) :
    (retryState u ty now s).connectionAttempts =
      ((wsGateResult u ty now s).2).connectionAttempts := by
  rw [retryState]
  dsimp only
  exact postGateState_connectionAttempts u ty now s

/-- Claim C2, counterexample: an error whose text contains "429" but none of
the recognised renderings ("status code 429", `statusCode":429`) is NOT
classified as a rate-limit error, so `executeWithRetry` with `maxRetries=2`
invokes such an always-throwing operation exactly once and propagates the
original error instead of performing 3 invocations and returning the
terminal rate-limit error. -/
theorem C2_counterexample :
    containsSubstr "429" "429" = true ∧
    isRateLimitError ⟨"429", "Error: 429"⟩ = false ∧
    executeWithRetry
        (fun _ => (Except.error ⟨"429", "Error: 429"⟩ : Except JSError Nat))
        "u" "default" 2 0 emptyRL 0 =
      (Except.error ⟨"429", "Error: 429"⟩,
       ⟨[], [("u-default", 0)], [], []⟩, 1) := by
  refine ⟨rfl, by decide, ?_⟩
  rw [ewr_hard
    (fun _ => (Except.error ⟨"429", "Error: 429"⟩ : Except JSError Nat))
    "u" "default" 2 0 emptyRL 0 ⟨"429", "Error: 429"⟩ rfl rfl (by decide)]
  rfl

/-- Claim C2 (amended): for an operation that always throws an error that is
classified as a rate-limit error (e.g. one whose text contains the rendering
"status code 429") and not as a WebSocket error, with no stored retry count
and no stored WebSocket window for the key, `executeWithRetry` with
`maxRetries = 2` invokes the operation exactly 3 times (initial + 2 retries)
and fails with the terminal rate-limit error. -/
theorem C2_rate_limit_three_calls {α : Type} (op : Nat → Except JSError α)
    (u ty : String) (now : Int) (s : RLState) (e : JSError)
    (hop : ∀ n, op n = Except.error e)
    (hrl : isRateLimitError e = true)
    (hwse : isWebSocketError e = false)
    (ha : getAttempt s (opKey u ty) = 0)
    (hca : alookup s.connectionAttempts (u ++ "-ws-" ++ ty) = none) :
    (executeWithRetry op u ty 2 now s 0).1 =
      Except.error rateLimitExceededError ∧
    (executeWithRetry op u ty 2 now s 0).2.2 = 3 := by
  have hcls : (isRateLimitError e || isWebSocketError e) = true := by
    rw [hrl]
    rfl
  have hterm :
      (if isWebSocketError e then videoFailedError
       else rateLimitExceededError) = rateLimitExceededError := by
    rw [if_neg]
    rw [hwse]
    exact Bool.false_ne_true
  set s1 : RLState := retryState u ty now s with hs1
  set s2 : RLState := retryState u ty now s1 with hs2
  have a1 : getAttempt s1 (opKey u ty) = 1 := by
    rw [hs1, getAttempt_retryState, ha]
  have a2 : getAttempt s2 (opKey u ty) = 2 := by
    rw [hs2, getAttempt_retryState, a1]
  by_cases hw : wsOperationType ty = true
  · -- WebSocket-flavoured operation type: the gate is consulted and passes
    -- three times, counting attempts 1, 2, 3 in a window anchored at `now`.
    have g1 := wsGate_fresh u ty now s hca
    have hg1 : (wsGateResult u ty now s).1 = false := by
      rw [wsGateResult, if_pos hw, g1]
    have hc1 : s1.connectionAttempts =
        aset s.connectionAttempts (u ++ "-ws-" ++ ty) ⟨1, now⟩ := by
      rw [hs1, retryState_connectionAttempts, wsGateResult, if_pos hw, g1]
    have l1 : alookup s1.connectionAttempts (u ++ "-ws-" ++ ty) =
        some ⟨1, now⟩ := by
      rw [hc1]
      exact alookup_aset_self _ _ _
    have g2 := wsGate_under u ty now now 1 s1 l1 (by omega) (by omega)
    have hg2 : (wsGateResult u ty now s1).1 = false := by
      rw [wsGateResult, if_pos hw, g2]
    have hc2 : s2.connectionAttempts =
        aset s1.connectionAttempts (u ++ "-ws-" ++ ty) ⟨2, now⟩ := by
      rw [hs2, retryState_connectionAttempts, wsGateResult, if_pos hw, g2]
    have l2 : alookup s2.connectionAttempts (u ++ "-ws-" ++ ty) =
        some ⟨2, now⟩ := by
      rw [hc2]
      exact alookup_aset_self _ _ _
    have g3 := wsGate_under u ty now now 2 s2 l2 (by omega) (by omega)
    have hg3 : (wsGateResult u ty now s2).1 = false := by
      rw [wsGateResult, if_pos hw, g3]
    have step1 := ewr_retry' op u ty 2 now s 0 e hg1 (hop 0) hcls (by omega)
    have step2 := ewr_retry' op u ty 2 now s1 1 e hg2 (hop 1) hcls (by omega)
    have step3 := ewr_terminal op u ty 2 now s2 2 e hg3 (hop 2) hcls (by omega)
    rw [step1, ← hs1, step2, ← hs2, step3, hterm]
    exact ⟨rfl, rfl⟩
  · -- Plain operation type: the WebSocket gate is skipped on every call.
    have hw' : wsOperationType ty = false := bool_ne_true hw
    have hg1 : (wsGateResult u ty now s).1 = false := by
      rw [wsGateResult_not_ws u ty now s hw']
    have hg2 : (wsGateResult u ty now s1).1 = false := by
      rw [wsGateResult_not_ws u ty now s1 hw']
    have hg3 : (wsGateResult u ty now s2).1 = false := by
      rw [wsGateResult_not_ws u ty now s2 hw']
    have step1 := ewr_retry' op u ty 2 now s 0 e hg1 (hop 0) hcls (by omega)
    have step2 := ewr_retry' op u ty 2 now s1 1 e hg2 (hop 1) hcls (by omega)
    have step3 := ewr_terminal op u ty 2 now s2 2 e hg3 (hop 2) hcls (by omega)
    rw [step1, ← hs1, step2, ← hs2, step3, hterm]
    exact ⟨rfl, rfl⟩

/-- Witness for C2_rate_limit_three_calls: an operation always failing with
"HTTP status code 429" on a fresh handler is invoked exactly 3 times. -/
theorem C2_rate_limit_three_calls_witness :
    (executeWithRetry
        (fun _ => (Except.error (mkError "HTTP status code 429") :
          Except JSError Nat))
        "u" "default" 2 50 emptyRL 0).2.2 = 3 :=
  (C2_rate_limit_three_calls
    (fun _ => (Except.error (mkError "HTTP status code 429") :
      Except JSError Nat))
    "u" "default" 50 emptyRL (mkError "HTTP status code 429")
    (fun _ => rfl) (by decide) (by decide) rfl rfl).2

/-! ### Claim C8 -/

/-- Claim C8: for a canonical channel id not yet in the cache, a first
`getOrCreateChannel` request whose creation operation succeeds immediately
returns the new handle after exactly one creation invocation and memoizes
it; a second request for the same id — with any creation operation, any
subject and any handler state — returns the identical cached handle with
zero creation invocations and leaves cache and state untouched. -/
theorem C8_channel_cache {β : Type} (create create2 : Nat → Except JSError β)
    (cid uid uid2 : String) (now now2 : Int) (cache : List (String × β))
    (s s2 : RLState) (ch : β)
    (hmiss : alookup cache cid = none)
    (hcr : create 0 = Except.ok ch) :
    (getOrCreateChannel create cid uid now cache s).1 = Except.ok ch ∧
    (getOrCreateChannel create cid uid now cache s).2.1 = aset cache cid ch ∧
    (getOrCreateChannel create cid uid now cache s).2.2.2 = 1 ∧
    getOrCreateChannel create2 cid uid2 now2 (aset cache cid ch) s2 =
      (Except.ok ch, aset cache cid ch, s2, 0) := by
  have hg : (wsGateResult uid "channel-create" now s).1 = false := by
    rw [wsGateResult_not_ws uid "channel-create" now s (by decide)]
  have hmain := ewr_success create uid "channel-create" 2 now s 0 ch hg hcr
  refine ⟨?_, ?_, ?_, ?_⟩
  · rw [getOrCreateChannel, hmiss]
    dsimp only
    rw [hmain]
  · rw [getOrCreateChannel, hmiss]
    dsimp only
    rw [hmain]
  · rw [getOrCreateChannel, hmiss]
    dsimp only
    rw [hmain]
  · rw [getOrCreateChannel, alookup_aset_self]

/-- Witness for C8_channel_cache: a concrete creation operation returning
handle `5` for channel id `a-b` on an empty cache. -/
theorem C8_channel_cache_witness :
    getOrCreateChannel (fun _ => (Except.ok 5 : Except JSError Nat)) "a-b"
        "u2" 99 (aset [] "a-b" 5) emptyRL =
      (Except.ok 5, aset [] "a-b" 5, emptyRL, 0) :=
  (C8_channel_cache (fun _ => (Except.ok 5 : Except JSError Nat))
    (fun _ => (Except.ok 5 : Except JSError Nat)) "a-b" "u" "u2" 10 99 []
    emptyRL emptyRL 5 rfl rfl).2.2.2

/-! ### Claim C10 -/

lemma alookup_foldl_aerase {α : Type} (ks : List String)
    (m : List (String × α)) (k : String) :
    alookup (ks.foldl (fun m' k' => aerase m' k') m) k =
      if k ∈ ks then none else alookup m k := by
  induction ks generalizing m with
  | nil => simp
  | cons a rest ih =>
    rw [List.foldl_cons, ih]
    by_cases hk : k ∈ rest
    · simp [hk]
    · by_cases hak : k = a
      · subst hak
        simp [hk, alookup_aerase]
      · simp only [List.mem_cons, hk, hak, or_self, if_false]
        rw [alookup_aerase, if_neg (fun hc => hak hc.symm)]

lemma keysWithPre_starts {α : Type} (u : String) (m : List (String × α))
    (k : String) (h : k ∈ keysWithPre u m) : startsWithStr k u = true := by
  induction m with
  | nil => exact absurd h (List.not_mem_nil k)
  | cons p rest ih =>
    rw [keysWithPre] at h
    by_cases hp : startsWithStr p.1 u = true
    · rw [if_pos hp] at h
      rcases List.mem_cons.mp h with h1 | h2
      · rw [h1]
        exact hp
      · exact ih h2
    · rw [if_neg hp] at h
      exact ih h

lemma mem_keysWithPre_of_lookup {α : Type} (u : String)
    (m : List (String × α)) (k : String)
    (hpre : startsWithStr k u = true) (hl : ¬ alookup m k = none) :
    k ∈ keysWithPre u m := by
  induction m with
  | nil => exact absurd rfl hl
  | cons p rest ih =>
    rw [keysWithPre]
    rw [alookup] at hl
    by_cases hpk : p.1 = k
    · rw [if_pos (hpk ▸ hpre), hpk]
      exact List.mem_cons_self _ _
    · rw [if_neg hpk] at hl
      by_cases hp : startsWithStr p.1 u = true
      · rw [if_pos hp]
        exact List.mem_cons_of_mem _ (ih hl)
      · rw [if_neg hp]
        exact ih hl

lemma smem_sdropWithPre (u : String) (bo : List String) (k : String) :
    smem (sdropWithPre u bo) k =
      if startsWithStr k u = true then false else smem bo k := by
  induction bo with
  | nil => simp [sdropWithPre, smem]
  | cons a rest ih =>
    rw [sdropWithPre]
    by_cases ha : startsWithStr a u = true
    · rw [if_pos ha, ih, smem]
      by_cases hk : startsWithStr k u = true
      · simp [hk]
      · rw [if_neg hk, if_neg hk]
        have hak : (a == k) = false := by
          apply beq_eq_false_iff_ne.mpr
          intro hc
          exact hk (hc ▸ ha)
        simp [hak]
    · rw [if_neg ha, smem, ih, smem]
      by_cases hk : startsWithStr k u = true
      · rw [if_pos hk, if_pos hk]
        have hak : (a == k) = false := by
          apply beq_eq_false_iff_ne.mpr
          intro hc
          exact ha (hc ▸ hk)
        simp [hak]
      · rw [if_neg hk, if_neg hk]

lemma alookup_adropWithPre {α : Type} (u : String) (m : List (String × α))
    (k : String) :
    alookup (adropWithPre u m) k =
      if startsWithStr k u = true then none else alookup m k := by
  induction m with
  | nil => simp [adropWithPre, alookup]
  | cons p rest ih =>
    rw [adropWithPre]
    by_cases hp : startsWithStr p.1 u = true
    · rw [if_pos hp, ih]
      by_cases hk : startsWithStr k u = true
      · simp [hk]
      · rw [if_neg hk, if_neg hk, alookup]
        have hpk : ¬ p.1 = k := fun hc => hk (hc ▸ hp)
        rw [if_neg hpk]
    · rw [if_neg hp, alookup, ih]
      by_cases hpk : p.1 = k
      · rw [if_pos hpk]
        have hk : ¬ startsWithStr k u = true := fun hc => hp (hpk ▸ hc)
        rw [if_neg hk, alookup, if_pos hpk]
      · rw [if_neg hpk, alookup, if_neg hpk]

/-- Claim C10: `clearUserAttempts(userId)` deletes exactly the entries whose
key starts with `userId` from each of the four tables and leaves every other
entry unchanged (stated pointwise for an arbitrary key `k`; in particular an
entry of a different subject whose key happens to start with `userId` is
deleted too, and every key not starting with `userId` keeps its binding). -/
theorem C10_clear_frame (u : String) (s : RLState) (k : String) :
    alookup ((clearUserAttempts u s).retryAttempts) k =
      (if startsWithStr k u = true then none
       else alookup s.retryAttempts k) ∧
    alookup ((clearUserAttempts u s).lastRequestTime) k =
      (if startsWithStr k u = true then none
       else alookup s.lastRequestTime k) ∧
    smem ((clearUserAttempts u s).blockedOperations) k =
      (if startsWithStr k u = true then false
       else smem s.blockedOperations k) ∧
    alookup ((clearUserAttempts u s).connectionAttempts) k =
      (if startsWithStr k u = true then none
       else alookup s.connectionAttempts k) := by
  rw [clearUserAttempts]
  dsimp only
  refine ⟨?_, ?_, smem_sdropWithPre u s.blockedOperations k,
    alookup_adropWithPre u s.connectionAttempts k⟩
  · rw [alookup_foldl_aerase]
    by_cases hpre : startsWithStr k u = true
    · rw [if_pos hpre]
      by_cases hl : alookup s.retryAttempts k = none
      · split
        · rfl
        · exact hl
      · rw [if_pos (show k ∈ clearKeys u s from by
          rw [clearKeys]
          exact List.mem_append_left _
            (mem_keysWithPre_of_lookup u s.retryAttempts k hpre hl))]
    · rw [if_neg hpre, if_neg]
      intro hmem
      rw [clearKeys] at hmem
      rcases List.mem_append.mp hmem with h1 | h1
      · exact hpre (keysWithPre_starts u s.retryAttempts k h1)
      · exact hpre (keysWithPre_starts u s.lastRequestTime k h1)
  · rw [alookup_foldl_aerase]
    by_cases hpre : startsWithStr k u = true
    · rw [if_pos hpre]
      by_cases hl : alookup s.lastRequestTime k = none
      · split
        · rfl
        · exact hl
      · rw [if_pos (show k ∈ clearKeys u s from by
          rw [clearKeys]
          exact List.mem_append_right _
            (mem_keysWithPre_of_lookup u s.lastRequestTime k hpre hl))]
    · rw [if_neg hpre, if_neg]
      intro hmem
      rw [clearKeys] at hmem
      rcases List.mem_append.mp hmem with h1 | h1
      · exact hpre (keysWithPre_starts u s.retryAttempts k h1)
      · exact hpre (keysWithPre_starts u s.lastRequestTime k h1)
